import Mathlib

/-!
Shallow embedding of the story-processing pipeline of
`src/story_processor.py` and its configuration `src/config.py`.

Python strings are modelled as Lean `String` (a list of code points, which
matches Python indexing/slicing semantics for the inputs considered here).
Python `dict` records with a fixed key universe (characters, scenes) are
modelled as structures with one `Option String` field per possible key:
`none` means the key is absent, `some v` means the key is present with
value `v` (so `some ""` is a present-but-empty value, which is falsy for
`dict.get` but does not raise on `d[k]`, exactly like Python).
-/

/-! ## Python string primitives -/

/-- The default whitespace characters of Python `str.strip` / `str.split`
(ASCII subset; the inputs of this development contain no other whitespace). -/
def pyIsSpace (c : Char) : Bool :=
  c = ' ' || c = '\t' || c = '\n' || c = '\r' || c = '\x0b' || c = '\x0c'

/-- `text.split(chr(10))` at the code-point level: split on every newline,
keeping empty segments (Python keeps them for an explicit separator). -/
def splitNlL : List Char → List (List Char)
  | [] => [[]]
  | c :: rest =>
    if c = '\n' then [] :: splitNlL rest
    else
      match splitNlL rest with
      | [] => [[c]]
      | l :: ls => (c :: l) :: ls

/-- Python `text.split(chr(10))`. -/
def pySplitNl (s : String) : List String :=
  (splitNlL s.data).map (fun l => ⟨l⟩)

/-- Python `str.strip()` at the code-point level. -/
def stripL (l : List Char) : List Char :=
  ((l.dropWhile pyIsSpace).reverse.dropWhile pyIsSpace).reverse

/-- Python `str.strip()`. -/
def pyStrip (s : String) : String := ⟨stripL s.data⟩

/-- Python `sep.join(parts)`. -/
def pyJoin (sep : String) : List String → String
  | [] => ""
  | [x] => x
  | x :: y :: xs => x ++ sep ++ pyJoin sep (y :: xs)

/-- Python `s.startswith(m)`. -/
def pyStartsWith (s m : String) : Bool := m.data.isPrefixOf s.data

/-- Python slicing `s[n:]` (by code points). -/
def pyDropStr (s : String) (n : Nat) : String := ⟨s.data.drop n⟩

/-- Python slicing `s[:n]` (by code points). -/
def pyTakeStr (s : String) (n : Nat) : String := ⟨s.data.take n⟩

/-- Accumulator pass of Python `str.split()` with no argument: split on
whitespace runs, discarding empty words.  `cur` is the current word read
so far, in reverse. -/
def wordsAux : List Char → List Char → List (List Char)
  | [], cur => if cur = [] then [] else [cur.reverse]
  | c :: rest, cur =>
    if pyIsSpace c then
      if cur = [] then wordsAux rest []
      else cur.reverse :: wordsAux rest []
    else wordsAux rest (c :: cur)

/-- Python `s.split()` (no argument). -/
def pyWords (s : String) : List String :=
  (wordsAux s.data []).map (fun l => ⟨l⟩)

/-- One scan of Python `s.replace(pat, "")` (remove every non-overlapping
occurrence of `pat`, scanning left to right). -/
def removeAllL (pat : List Char) : List Char → List Char
  | [] => []
  | c :: rest =>
    if pat.isPrefixOf (c :: rest) && !pat.isEmpty then
      removeAllL pat (rest.drop (pat.length - 1))
    else
      c :: removeAllL pat rest
termination_by l => l.length
decreasing_by
  · simp only [List.length_cons, List.length_drop]
    omega
  · simp

/-- Python `s.replace(pat, "")`. -/
def pyRemoveAll (s pat : String) : String := ⟨removeAllL pat.data s.data⟩

/-- An apostrophe, as a string (U+0027). -/
def apos : String := String.singleton (Char.ofNat 39)

/-! ## Configuration (`src/config.py`) -/

-- PROCESSING_RULES['character_limits']
def min_characters : Nat := 2
def max_characters : Nat := 6

-- PROCESSING_RULES['scene_limits']
def min_scenes : Nat := 4
def max_scenes : Nat := 8

-- PROCESSING_RULES['narration_limits']
def min_words : Nat := 900
def max_words : Nat := 1200

-- VALIDATION_RULES
def min_story_length : Nat := 100
def max_story_length : Nat := 10000

-- SYSTEM_SETTINGS
def max_retries : Nat := 3
def retry_delay : Nat := 2

/-! ## Data model -/

/-- A parsed character record (Python dict with keys drawn from
`PARSING_RULES['character_format']['field_markers']`). -/
structure Character where
  name : Option String
  role : Option String
  personality : Option String
  appearance : Option String
  motivation : Option String
  emotional_traits : Option String
  description : Option String
deriving DecidableEq

/-- The empty character dict `{}`. -/
def emptyCharacter : Character := ⟨none, none, none, none, none, none, none⟩

/-- A parsed scene record (Python dict with keys drawn from
`PARSING_RULES['scene_format']['field_markers']`). -/
structure Scene where
  title : Option String
  location : Option String
  emotion : Option String
  characters : Option String
  action : Option String
  description : Option String
deriving DecidableEq

/-- The empty scene dict `{}`. -/
def emptyScene : Scene := ⟨none, none, none, none, none, none⟩

/-- An image-prompt record (`{'scene': ..., 'prompt': ...}`). -/
structure ImagePrompt where
  scene : String
  prompt : String
deriving DecidableEq

/-- `processing_stats` of a ProcessingResult. -/
structure ProcessingStats where
  character_count : Nat
  scene_count : Nat
  image_prompt_count : Nat
  processing_method : String
deriving DecidableEq

/-- The dictionary returned by `StoryProcessor.process_story`. -/
structure ProcessingResult where
  story_title : String
  original_story : String
  characters : List Character
  scenes : List Scene
  narration : String
  image_prompts : List ImagePrompt
  processing_stats : ProcessingStats
deriving DecidableEq

/-! ## Validation (`_validate_character`, `_validate_scene`) -/

/-- Python falsiness of `record.get(field)`: the key is absent or its
value is the empty string. -/
def fieldMissing : Option String → Bool
  | none => true
  | some v => v = ""

/-- `[field for field in required_fields if not character.get(field)]`
in the order of `PROCESSING_RULES['character_limits']['required_fields']`. -/
def characterMissingFields (c : Character) : List String :=
  (if fieldMissing c.name then ["name"] else []) ++
  (if fieldMissing c.role then ["role"] else []) ++
  (if fieldMissing c.personality then ["personality"] else []) ++
  (if fieldMissing c.appearance then ["appearance"] else []) ++
  (if fieldMissing c.motivation then ["motivation"] else []) ++
  (if fieldMissing c.emotional_traits then ["emotional_traits"] else []) ++
  (if fieldMissing c.description then ["description"] else [])

/-- `StoryProcessor._validate_character`. -/
def validateCharacter (c : Character) : Bool :=
  let missing_fields := characterMissingFields c
  if missing_fields.isEmpty then true else missing_fields.length ≤ 2

/-- As `characterMissingFields`, for scenes
(`PROCESSING_RULES['scene_limits']['required_fields']`). -/
def sceneMissingFields (s : Scene) : List String :=
  (if fieldMissing s.title then ["title"] else []) ++
  (if fieldMissing s.location then ["location"] else []) ++
  (if fieldMissing s.emotion then ["emotion"] else []) ++
  (if fieldMissing s.characters then ["characters"] else []) ++
  (if fieldMissing s.action then ["action"] else []) ++
  (if fieldMissing s.description then ["description"] else [])

/-- `StoryProcessor._validate_scene`. -/
def validateScene (s : Scene) : Bool :=
  let missing_fields := sceneMissingFields s
  if missing_fields.isEmpty then true else missing_fields.length ≤ 2

/-! ## BlockParser: `_parse_characters` and `_parse_scenes` -/

/-- `line.startswith(marker)` and extraction `line[len(marker):].strip()`,
combined: the body of the field-marker loop. -/
def matchMarker (marker line : String) : Option String :=
  if pyStartsWith line marker then some (pyStrip (pyDropStr line marker.data.length))
  else none

/-- One pass of the field-marker loop of `_parse_characters`
(`for field, marker in ... field_markers.items(): if line.startswith(marker):
... break`), in the insertion order of the marker dict. -/
def setCharField (c : Character) (line : String) : Character :=
  match matchMarker "Character:" line with
  | some v => { c with name := some v }
  | none =>
  match matchMarker "Role:" line with
  | some v => { c with role := some v }
  | none =>
  match matchMarker "Personality:" line with
  | some v => { c with personality := some v }
  | none =>
  match matchMarker "Appearance:" line with
  | some v => { c with appearance := some v }
  | none =>
  match matchMarker "Motivation:" line with
  | some v => { c with motivation := some v }
  | none =>
  match matchMarker "Emotional Traits:" line with
  | some v => { c with emotional_traits := some v }
  | none =>
  match matchMarker "Description:" line with
  | some v => { c with description := some v }
  | none => c

/-- The line loop of `_parse_characters`: blank (stripped) lines close the
current record, which is appended when it is a non-empty dict passing
`_validate_character`; other lines run the field-marker loop.  End of
input closes any open record the same way. -/
def parseCharacterLines : List String → Character → List Character
  | [], cur =>
    if cur = emptyCharacter then [] else if validateCharacter cur then [cur] else []
  | l :: ls, cur =>
    let line := pyStrip l
    if line = "" then
      (if cur = emptyCharacter then [] else if validateCharacter cur then [cur] else []) ++
        parseCharacterLines ls emptyCharacter
    else
      parseCharacterLines ls (setCharField cur line)

/-- The character records collected by the loop of `_parse_characters`,
before the count gate. -/
def parsedCharacterList (analysis_text : String) : List Character :=
  parseCharacterLines (pySplitNl analysis_text) emptyCharacter

/-- `StoryProcessor._extract_basic_characters` (fallback synthesis). -/
def extractBasicCharacters (_story_content : String) : List Character :=
  let characters : List Character :=
    [⟨some "Adventure Hero", some "protagonist", some "brave, curious, kind",
      some "young adventurer with bright eyes and friendly smile",
      some "to explore and discover new things",
      some "excited, courageous, hopeful",
      some "The main character who goes on a wonderful adventure."⟩,
     ⟨some "Magical Friend", some "supporting", some "helpful, magical, wise",
      some "sparkling magical creature with gentle features",
      some "to help and guide the hero",
      some "caring, patient, encouraging",
      some "A magical friend who helps on the adventure."⟩]
  characters.take max_characters

/-- `StoryProcessor._parse_characters`: parse, truncate to the maximum,
and substitute the fallback characters when below the minimum. -/
def parseCharacters (analysis_text : String) : List Character :=
  let characters := (parsedCharacterList analysis_text).take max_characters
  if characters.length < min_characters then extractBasicCharacters analysis_text
  else characters

/-- One pass of the field-marker loop of `_parse_scenes`. -/
def setSceneField (s : Scene) (line : String) : Scene :=
  match matchMarker "Scene:" line with
  | some v => { s with title := some v }
  | none =>
  match matchMarker "Location:" line with
  | some v => { s with location := some v }
  | none =>
  match matchMarker "Emotion:" line with
  | some v => { s with emotion := some v }
  | none =>
  match matchMarker "Characters:" line with
  | some v => { s with characters := some v }
  | none =>
  match matchMarker "Action:" line with
  | some v => { s with action := some v }
  | none =>
  match matchMarker "Description:" line with
  | some v => { s with description := some v }
  | none => s

/-- The line loop of `_parse_scenes` (same state machine as
`parseCharacterLines`). -/
def parseSceneLines : List String → Scene → List Scene
  | [], cur =>
    if cur = emptyScene then [] else if validateScene cur then [cur] else []
  | l :: ls, cur =>
    let line := pyStrip l
    if line = "" then
      (if cur = emptyScene then [] else if validateScene cur then [cur] else []) ++
        parseSceneLines ls emptyScene
    else
      parseSceneLines ls (setSceneField cur line)

/-- The scene records collected by the loop of `_parse_scenes`,
before the count gate. -/
def parsedSceneList (analysis_text : String) : List Scene :=
  parseSceneLines (pySplitNl analysis_text) emptyScene

/-- `StoryProcessor._create_basic_scenes` (fallback synthesis).
`char['name']` raises `KeyError` when the key is absent; every call site
passes records whose `name` key is present, modelled by `Option.getD`. -/
def createBasicScenes (_story_content : String) (characters : List Character) : List Scene :=
  let character_names := pyJoin ", " ((characters.take 2).map (fun c => c.name.getD ""))
  let scenes : List Scene :=
    [⟨some "The Beginning Adventure", some "Magical Story World", some "excited",
      some character_names, some "Starting the wonderful journey",
      some "Where our adventure begins with excitement and curiosity."⟩,
     ⟨some "Discovering New Places", some "Enchanted Forest", some "curious",
      some character_names, some "Exploring magical surroundings",
      some "Discovering amazing new places and making wonderful finds."⟩,
     ⟨some "Facing Challenges", some "Mysterious Path", some "brave",
      some character_names, some "Overcoming obstacles together",
      some "Working together to solve problems and face challenges."⟩,
     ⟨some "Happy Celebration", some "Beautiful Meadow", some "joyful",
      some character_names, some "Celebrating success",
      some "A wonderful celebration of friendship and accomplishment."⟩]
  scenes.take max_scenes

/-- `StoryProcessor._parse_scenes`: parse, truncate to the maximum,
and substitute the fallback scenes (with an empty character list)
when below the minimum. -/
def parseScenes (analysis_text : String) : List Scene :=
  let scenes := (parsedSceneList analysis_text).take max_scenes
  if scenes.length < min_scenes then createBasicScenes analysis_text []
  else scenes

/-! ## Narration and image prompts -/

/-- The fixed text of the fallback narration before the character names. -/
def basicNarrationIntro : String :=
  "\nWelcome to our magical story time! Today we" ++ apos ++
    "re going on an amazing adventure with "

/-- The fixed text of the fallback narration between the character names
and the story excerpt. -/
def basicNarrationMid : String := ".\n\n"

/-- The fixed text of the fallback narration after the story excerpt. -/
def basicNarrationOutro : String :=
  "...\n\n" ++
  "What an incredible journey! Can you guess what wonderful things we discovered along the way?\n\n" ++
  "Remember, every story is a new adventure waiting to be explored. What was your favorite part?\n\n" ++
  "Let" ++ apos ++ "s imagine we" ++ apos ++
    "re there right now - can you see the magical colors and hear the wonderful sounds?\n\n" ++
  "And they all lived happily ever after, exploring new adventures every day!\n"

/-- `StoryProcessor._create_basic_narration` (fallback synthesis).
The exact f-string of the source (split here into its three fixed pieces),
including its leading and trailing newlines.  `char['name']` raises on an
absent key; the only call site passes the basic characters, whose names
are present (`Option.getD`). -/
def createBasicNarration (story_content : String) (characters : List Character)
    (_scenes : List Scene) : String :=
  let character_names := pyJoin ", " ((characters.take 2).map (fun c => c.name.getD ""))
  basicNarrationIntro ++ character_names ++ basicNarrationMid ++
    pyTakeStr story_content 200 ++ basicNarrationOutro

/-- `StoryProcessor._create_basic_image_prompts` (fallback synthesis).
`scene['title']` / `scene['description']` raise on an absent key; the only
call site passes the basic scenes, whose keys are present. -/
def createBasicImagePrompts (scenes : List Scene) (_characters : List Character) :
    List ImagePrompt :=
  scenes.map (fun scene =>
    ⟨scene.title.getD "",
     "Children" ++ apos ++ "s storybook illustration of " ++ scene.title.getD "" ++
       ", " ++ scene.description.getD "" ++
       ", magical storybook style, warm lighting, soft pastel colors, detailed environments, 16:9 aspect ratio, child-friendly"⟩)

/-- The line loop of `_parse_image_prompts`: a line starting with
`Prompt for` closes any open prompt and opens a new one whose scene title
is the line with every occurrence of `Prompt for` and of `:` removed,
stripped; any other non-blank line is appended (plus a space) to the open
prompt; blank lines are ignored.  End of input closes the open prompt. -/
def parsePromptLines : List String → Option ImagePrompt → List ImagePrompt
  | [], cur => match cur with | some p => [p] | none => []
  | l :: ls, cur =>
    let line := pyStrip l
    if pyStartsWith line "Prompt for" then
      let closed := match cur with | some p => [p] | none => []
      let scene_title := pyStrip (pyRemoveAll (pyRemoveAll line "Prompt for") ":")
      closed ++ parsePromptLines ls (some ⟨scene_title, ""⟩)
    else
      match cur with
      | some p =>
        if line = "" then parsePromptLines ls (some p)
        else parsePromptLines ls (some ⟨p.scene, p.prompt ++ line ++ " "⟩)
      | none => parsePromptLines ls none

/-- The default prompt synthesized for a scene with no parsed prompt
(the body of the reconciliation loop of `_parse_image_prompts`). -/
def defaultPromptFor (i : Nat) (scene : Scene) : ImagePrompt :=
  ⟨scene.title.getD ("Scene " ++ toString (i + 1)),
   "Children" ++ apos ++ "s storybook illustration of " ++
     scene.title.getD "story scene" ++
     ", magical, colorful, warm lighting, storybook style"⟩

/-- `StoryProcessor._parse_image_prompts`: parse prompt blocks, then, when
fewer prompts than scenes were parsed, append a synthesized default prompt
for each uncovered scene (in scene order).  No truncation happens when more
prompts than scenes were parsed. -/
def parseImagePrompts (analysis_text : String) (scenes : List Scene) : List ImagePrompt :=
  let prompts := parsePromptLines (pySplitNl analysis_text) none
  if prompts.length < scenes.length then
    prompts ++ (scenes.enum.drop prompts.length).map (fun p => defaultPromptFor p.1 p.2)
  else prompts

/-! ## The two processing paths -/

/-- `StoryProcessor._process_with_fallback`. -/
def processWithFallback (story_content story_title : String) : ProcessingResult :=
  let characters := extractBasicCharacters story_content
  let scenes := createBasicScenes story_content characters
  let narration := createBasicNarration story_content characters scenes
  let image_prompts := createBasicImagePrompts scenes characters
  ⟨story_title, story_content, characters, scenes, narration, image_prompts,
   ⟨characters.length, scenes.length, image_prompts.length, "fallback"⟩⟩

/-- Python truthiness of the optional string returned by
`analyze_with_retry` (`None` and the empty string are falsy). -/
def isTruthy : Option String → Bool
  | none => false
  | some s => s ≠ ""

/-- The narration placeholder of `_process_with_ai`
(`narration or "Narration generation failed."`). -/
def narrationFailedMsg : String := "Narration generation failed."

/-- `StoryProcessor._process_with_ai`, as a function of the four model
responses (the values returned by `analyze_with_retry` for the character,
scene, narration and prompt stages).  A falsy response makes the stage use
an empty value instead of calling the stage parser.  `char['name']` in
`_format_character_summary` (and in the prompt-stage dict comprehension)
and `scene['title']` in `_format_scene_summary` raise `KeyError` on an
absent key; the exception is caught by the handler of `_process_with_ai`,
which returns the fallback result. -/
def processWithAI (story_content story_title : String)
    (charResp sceneResp narrResp promptResp : Option String) : ProcessingResult :=
  let characters := if isTruthy charResp then parseCharacters (charResp.getD "") else []
  if characters.any (fun c => c.name.isNone) then
    processWithFallback story_content story_title
  else
    let scenes := if isTruthy sceneResp then parseScenes (sceneResp.getD "") else []
    if scenes.any (fun s => s.title.isNone) then
      processWithFallback story_content story_title
    else
      let narration := if isTruthy narrResp then narrResp.getD "" else narrationFailedMsg
      let image_prompts :=
        if isTruthy promptResp then parseImagePrompts (promptResp.getD "") scenes else []
      ⟨story_title, story_content, characters, scenes, narration, image_prompts,
       ⟨characters.length, scenes.length, image_prompts.length, "ai"⟩⟩

/-! ## Input validation, title extraction, quality gates, process_story -/

/-- `StoryProcessor._validate_story_input`: note that the minimum is
checked against the length of the *stripped* text, the maximum against the
raw length. -/
def validateStoryInputE (story_content : String) : Except String Unit :=
  if story_content = "" || (pyStrip story_content).data.length < min_story_length then
    .error "Story too short (min 100 characters)"
  else if story_content.data.length > max_story_length then
    .error "Story too long (max 10000 characters)"
  else .ok ()

/-- Whether `_validate_story_input` returns without raising. -/
def validateStoryInput (story_content : String) : Bool :=
  match validateStoryInputE story_content with
  | .ok _ => true
  | .error _ => false

/-- Python word characters, whitespace or hyphen: the characters kept by
`re.sub(r'[^\w\s-]', '', line)` (ASCII approximation of `\w`). -/
def keptTitleChar (c : Char) : Bool :=
  c.isAlphanum || c = '_' || pyIsSpace c || c = '-'

/-- One iteration of the title loop of `_extract_story_title`. -/
def titleFromLine (l : String) : Option String :=
  let line := pyStrip l
  if line ≠ "" && !(pyStartsWith line " " || pyStartsWith line "\t") &&
      line.data.length < 100 then
    let title := pyStrip ⟨line.data.filter keptTitleChar⟩
    if title ≠ "" && title.data.length > 3 then some title else none
  else none

/-- The loop of `_extract_story_title` over the first five lines. -/
def findTitle : List String → String
  | [] => "Magical Story Adventure"
  | l :: ls =>
    match titleFromLine l with
    | some t => t
    | none => findTitle ls

/-- `StoryProcessor._extract_story_title`. -/
def extractStoryTitle (story_content : String) : String :=
  findTitle ((pySplitNl (pyStrip story_content)).take 5)

/-- `StoryProcessor._apply_quality_gates`: reads the three counts and
collects advisory warnings; it neither modifies the results nor raises.
The returned pair is (the unchanged results, the warnings logged). -/
def applyQualityGates (results : ProcessingResult) : ProcessingResult × List String :=
  let char_count := results.characters.length
  let w1 :=
    if !(min_characters ≤ char_count && char_count ≤ max_characters) then
      ["character count outside expected range"] else []
  let scene_count := results.scenes.length
  let w2 :=
    if !(min_scenes ≤ scene_count && scene_count ≤ max_scenes) then
      ["scene count outside expected range"] else []
  let narration_words := (pyWords results.narration).length
  let w3 :=
    if !(min_words ≤ narration_words && narration_words ≤ max_words) then
      ["narration word count outside expected range"] else []
  (results, w1 ++ w2 ++ w3)

/-- `StoryProcessor.process_story`, as a function of the client
availability flag and the four model responses (framework loading is an
external collaborator and is not modelled). -/
def processStory (available : Bool)
    (charResp sceneResp narrResp promptResp : Option String)
    (story_content : String) : Except String ProcessingResult :=
  match validateStoryInputE story_content with
  | .error e => .error e
  | .ok _ =>
    let story_title := extractStoryTitle story_content
    let results :=
      if available then
        processWithAI story_content story_title charResp sceneResp narrResp promptResp
      else processWithFallback story_content story_title
    .ok (applyQualityGates results).1

/-! ## ModelClient: retry loop and initialization -/

/-- The observable trace of one `analyze_with_retry` call: the returned
value, the backoff sleeps performed (in order), and the number of attempts
made. -/
structure RetryTrace where
  result : Option String
  sleeps : List Nat
  attempts : Nat
deriving DecidableEq

/-- The attempt loop of `NiftyAIAnalyzer.analyze_with_retry`.
`outcomes i` is the outcome of attempt `i` (0-based): `some r` when the
API call returns `r`, `none` when it raises.  `fuel` is the number of
attempts remaining (`max_retries - attempt`).  On a failure with retries
remaining the loop sleeps `retry_delay * 2 ** attempt` seconds; on the
final failure it returns `None` instead of raising. -/
def retryLoop (outcomes : Nat → Option String) : Nat → Nat → RetryTrace
  | _, 0 => ⟨none, [], 0⟩
  | attempt, fuel + 1 =>
    match outcomes attempt with
    | some r => ⟨some (pyStrip r), [], 1⟩
    | none =>
      if fuel = 0 then ⟨none, [], 1⟩
      else
        let wait_time := retry_delay * 2 ^ attempt
        let t := retryLoop outcomes (attempt + 1) fuel
        ⟨t.result, wait_time :: t.sleeps, t.attempts + 1⟩

/-- `NiftyAIAnalyzer.analyze_with_retry`: immediately `None` when the
client is unavailable, otherwise the attempt loop started at attempt 0. -/
def analyzeWithRetry (is_available : Bool) (outcomes : Nat → Option String) : RetryTrace :=
  if is_available then retryLoop outcomes 0 max_retries else ⟨none, [], 0⟩

/-- `NiftyAIAnalyzer.initialize_client`, as a function of whether an API
key is configured and of the outcome of the single connection probe
(`some r` = the test request succeeds, `none` = it raises).  Returns
(`is_available`, backoff sleeps performed): any failure marks the client
unavailable immediately — there is no retry and no sleep during
initialization. -/
def initializeClient (api_key_present : Bool) (probe : Option String) : Bool × List Nat :=
  if !api_key_present then (false, [])
  else
    match probe with
    | some _ => (true, [])
    | none => (false, [])

/-! ## The hypothetical serializer of the marker format

Modelled from the spec: the round-trip property talks about "the exact
text emitted by a hypothetical serializer of a record sequence" — one
`Marker: value` line per present field, in the configured marker order,
with a blank line between records.  These definitions follow the words of
the spec; they do not come from the source (the source has no
serializer). -/

/-- One `Marker: value` line for a present field, none for an absent one. -/
def markerLine (marker : String) : Option String → List String
  | none => []
  | some v => [marker ++ " " ++ v]

/-- The lines of one serialized character, in the configured marker order. -/
def serializeCharacter (c : Character) : List String :=
  markerLine "Character:" c.name ++ markerLine "Role:" c.role ++
  markerLine "Personality:" c.personality ++ markerLine "Appearance:" c.appearance ++
  markerLine "Motivation:" c.motivation ++ markerLine "Emotional Traits:" c.emotional_traits ++
  markerLine "Description:" c.description

/-- The serialized text of a character sequence: each record one line per
field, a blank line between records. -/
def serializeCharacters (cs : List Character) : String :=
  pyJoin "\n\n" (cs.map (fun c => pyJoin "\n" (serializeCharacter c)))

/-- The lines of one serialized scene, in the configured marker order. -/
def serializeScene (s : Scene) : List String :=
  markerLine "Scene:" s.title ++ markerLine "Location:" s.location ++
  markerLine "Emotion:" s.emotion ++ markerLine "Characters:" s.characters ++
  markerLine "Action:" s.action ++ markerLine "Description:" s.description

/-- The serialized text of a scene sequence. -/
def serializeScenes (ss : List Scene) : String :=
  pyJoin "\n\n" (ss.map (fun s => pyJoin "\n" (serializeScene s)))

/-- A non-empty single-line string with no leading or trailing whitespace
(the value condition under which the marker format round-trips). -/
def okValue (v : String) : Bool :=
  match v.data.head?, v.data.getLast? with
  | some c, some d => !pyIsSpace c && !pyIsSpace d && v.data.all (fun ch => ch != '\n')
  | _, _ => false

/-- A field that is absent or holds an `okValue`. -/
def okField : Option String → Bool
  | none => true
  | some v => okValue v

/-- A character record whose present values round-trip and which passes
per-record validation. -/
def okCharacter (c : Character) : Bool :=
  okField c.name && okField c.role && okField c.personality && okField c.appearance &&
  okField c.motivation && okField c.emotional_traits && okField c.description &&
  validateCharacter c

/-- A scene record whose present values round-trip and which passes
per-record validation. -/
def okScene (s : Scene) : Bool :=
  okField s.title && okField s.location && okField s.emotion && okField s.characters &&
  okField s.action && okField s.description && validateScene s

/-- A non-empty single-line string, possibly with surrounding whitespace
(the weaker value condition of the round-trip claim as stated). -/
def looseValue : Option String → Bool
  | none => true
  | some v => v ≠ "" && v.data.all (fun ch => ch != '\n')

/-- A character record satisfying the round-trip claim exactly as stated:
present values non-empty and single-line, and the record passes
per-record validation. -/
def looseCharacter (c : Character) : Bool :=
  looseValue c.name && looseValue c.role && looseValue c.personality &&
  looseValue c.appearance && looseValue c.motivation && looseValue c.emotional_traits &&
  looseValue c.description && validateCharacter c

/-- The line sequence obtained by joining blocks of lines with one blank
line between blocks (what splitting the serialized text on newlines
yields). -/
def joinBlocksLines : List (List String) → List String
  | [] => []
  | [b] => b
  | b :: b2 :: bs => b ++ "" :: joinBlocksLines (b2 :: bs)

/-! ## Concrete inputs used by the claims -/

/-- A 100-character story of letters only: passes input validation. -/
def story100 : String := ⟨List.replicate 100 'a'⟩

/-- A 99-character story. -/
def story99 : String := ⟨List.replicate 99 'a'⟩

/-- A 100-character story whose last character is a space: its stripped
length is 99. -/
def story99sp : String := ⟨List.replicate 99 'a' ++ [' ']⟩

/-- A model response containing exactly five complete scene blocks. -/
def fiveSceneText : String :=
  "Scene: One\nLocation: L1\nEmotion: E1\nCharacters: C1\nAction: A1\nDescription: D1\n\n" ++
  "Scene: Two\nLocation: L2\nEmotion: E2\nCharacters: C2\nAction: A2\nDescription: D2\n\n" ++
  "Scene: Three\nLocation: L3\nEmotion: E3\nCharacters: C3\nAction: A3\nDescription: D3\n\n" ++
  "Scene: Four\nLocation: L4\nEmotion: E4\nCharacters: C4\nAction: A4\nDescription: D4\n\n" ++
  "Scene: Five\nLocation: L5\nEmotion: E5\nCharacters: C5\nAction: A5\nDescription: D5"

/-- A complete character record with stripped values. -/
def rtChar1 : Character :=
  ⟨some "Hero", some "protagonist", some "brave", some "tall",
   some "explore", some "happy", some "main"⟩

/-- A character record whose name value carries a trailing space: it is a
non-empty single-line value, but it does not survive the round trip. -/
def rtChar2 : Character :=
  ⟨some "B ", some "friend", some "kind", some "small",
   some "help", some "calm", some "pal"⟩

/-- `rtChar2` with the name stripped. -/
def rtChar2' : Character :=
  ⟨some "B", some "friend", some "kind", some "small",
   some "help", some "calm", some "pal"⟩

/-- Two complete scene records with stripped values. -/
def rtScene1 : Scene :=
  ⟨some "Dawn", some "Hill", some "calm", some "Hero", some "walks", some "opening"⟩

def rtScene2 : Scene :=
  ⟨some "Dusk", some "Cave", some "tense", some "Hero", some "hides", some "closing"⟩

def rtScene3 : Scene :=
  ⟨some "Night", some "Camp", some "warm", some "Hero", some "rests", some "middle"⟩

def rtScene4 : Scene :=
  ⟨some "Day", some "Lake", some "glad", some "Hero", some "swims", some "finale"⟩

/-! ## General lemmas about the string primitives -/

@[simp] theorem mk_data (l : List Char) : (String.mk l).data = l := rfl

theorem wordsAux_length_le (l : List Char) : ∀ cur, (wordsAux l cur).length ≤ l.length + 1 := by
  induction l with
  | nil =>
    intro cur
    by_cases h : cur = [] <;> simp [wordsAux, h]
  | cons c cs ih =>
    intro cur
    by_cases hc : pyIsSpace c
    · by_cases h : cur = []
      · simpa [wordsAux, hc, h] using le_trans (ih []) (by omega)
      · simp only [wordsAux, hc, if_pos rfl, if_neg h, if_true, List.length_cons]
        have := ih []
        omega
    · simp only [wordsAux, hc, if_false, Bool.false_eq_true, List.length_cons]
      have := ih (c :: cur)
      omega

theorem pyWords_length_le (s : String) : (pyWords s).length ≤ s.data.length + 1 := by
  simpa [pyWords] using wordsAux_length_le s.data []

theorem dropWhile_length_le (p : Char → Bool) (l : List Char) :
    (l.dropWhile p).length ≤ l.length := by
  induction l with
  | nil => simp [List.dropWhile]
  | cons c cs ih =>
    by_cases h : p c
    · simp only [List.dropWhile, h, List.length_cons]
      have := ih
      omega
    · simp [List.dropWhile, h]

theorem stripL_length_le (l : List Char) : (stripL l).length ≤ l.length := by
  unfold stripL
  calc ((l.dropWhile pyIsSpace).reverse.dropWhile pyIsSpace).reverse.length
      = ((l.dropWhile pyIsSpace).reverse.dropWhile pyIsSpace).length := List.length_reverse _
    _ ≤ (l.dropWhile pyIsSpace).reverse.length := dropWhile_length_le _ _
    _ = (l.dropWhile pyIsSpace).length := List.length_reverse _
    _ ≤ l.length := dropWhile_length_le _ _

/-- The length of the fallback narration text: the three fixed pieces, the
joined character names, and the (at most 200 code points of) story
excerpt. -/
theorem createBasicNarration_data_length (story_content : String)
    (characters : List Character) (sc : List Scene) :
    (createBasicNarration story_content characters sc).data.length =
      basicNarrationIntro.data.length +
      (pyJoin ", " ((characters.take 2).map (fun c => c.name.getD ""))).data.length +
      basicNarrationMid.data.length + (story_content.data.take 200).length +
      basicNarrationOutro.data.length := by
  simp [createBasicNarration, pyTakeStr, String.data_append, List.length_append]
  omega

set_option maxRecDepth 8192 in
/-- The fallback narration is always far below the 900-word minimum. -/
theorem basicNarration_words_lt (story_content : String) (sc : List Scene) :
    (pyWords (createBasicNarration story_content
        (extractBasicCharacters story_content) sc)).length < min_words := by
  have he : extractBasicCharacters story_content = extractBasicCharacters "" := rfl
  rw [he]
  have h1 := pyWords_length_le
    (createBasicNarration story_content (extractBasicCharacters "") sc)
  have h2 := createBasicNarration_data_length story_content
    (extractBasicCharacters "") sc
  have h3 : (story_content.data.take 200).length ≤ 200 := List.length_take_le 200 story_content.data
  have hIntro : basicNarrationIntro.data.length = 83 := by decide
  have hMid : basicNarrationMid.data.length = 3 := by decide
  have hOutro : basicNarrationOutro.data.length = 370 := by decide
  have hNames : (pyJoin ", " (((extractBasicCharacters "").take 2).map
      (fun c => c.name.getD ""))).data.length = 30 := by decide
  rw [min_words]
  omega

/-- The length of the reconciled prompt list: the number of parsed prompt
blocks when that already reaches the scene count, the scene count
otherwise (deficits are padded, excesses are kept). -/
theorem parseImagePrompts_length (analysis_text : String) (scenes : List Scene) :
    (parseImagePrompts analysis_text scenes).length =
      max (parsePromptLines (pySplitNl analysis_text) none).length scenes.length := by
  unfold parseImagePrompts
  by_cases h : (parsePromptLines (pySplitNl analysis_text) none).length < scenes.length
  · rw [if_pos h]
    simp only [List.length_append, List.length_map, List.length_drop, List.enum_length]
    omega
  · rw [if_neg h]
    omega

/-! ## Claim theorems -/

/-- C1 (amended).  The one-prompt-per-scene invariant holds on the
fallback path, and on the model-driven path whenever the prompt model
call yields text and at most `|scenes|` prompt blocks are parsed: the
reconciliation of `_parse_image_prompts` only pads deficits, producing
`max(parsed, |scenes|)` prompts.  (When the prompt call yields no text the
AI path stores an empty prompt list; when more blocks than scenes are
parsed the excess is kept — see the counterexample.) -/
theorem image_prompt_count_reconciliation :
    (∀ story_content story_title,
      (processWithFallback story_content story_title).image_prompts.length =
        (processWithFallback story_content story_title).scenes.length) ∧
    (∀ analysis_text scenes,
      (parseImagePrompts analysis_text scenes).length =
        max (parsePromptLines (pySplitNl analysis_text) none).length scenes.length) := by
  constructor
  · intro story_content story_title
    rfl
  · intro analysis_text scenes
    exact parseImagePrompts_length analysis_text scenes

/-- C1 counterexample.  A run of `_process_with_ai` in which the scene
stage yields unparseable text (so the fallback scenes, 4 of them, are
substituted) and the prompt model call yields no text produces a
ProcessingResult with 4 scenes and 0 image prompts: the claimed invariant
`len(image_prompts) == len(scenes)` fails. -/
theorem image_prompt_count_cex :
    (processWithAI "story" "T" none (some "x") none none).scenes.length = 4 ∧
    (processWithAI "story" "T" none (some "x") none none).image_prompts.length = 0 := by
  decide

set_option maxRecDepth 8192 in
/-- C2 (amended).  Every fallback ProcessingResult satisfies the
character-count, scene-count and prompt-count invariants of the spec, but
its narration is always far below the 900-word minimum: the word-count
invariant fails on the fallback path. -/
theorem fallback_result_invariants (story_content story_title : String) :
    min_characters ≤ (processWithFallback story_content story_title).characters.length ∧
    (processWithFallback story_content story_title).characters.length ≤ max_characters ∧
    min_scenes ≤ (processWithFallback story_content story_title).scenes.length ∧
    (processWithFallback story_content story_title).scenes.length ≤ max_scenes ∧
    (processWithFallback story_content story_title).image_prompts.length =
      (processWithFallback story_content story_title).scenes.length ∧
    (pyWords (processWithFallback story_content story_title).narration).length < min_words := by
  have hc : (processWithFallback story_content story_title).characters.length = 2 := rfl
  have hs : (processWithFallback story_content story_title).scenes.length = 4 := rfl
  have hp : (processWithFallback story_content story_title).image_prompts.length = 4 := rfl
  have hn : (processWithFallback story_content story_title).narration =
      createBasicNarration story_content (extractBasicCharacters story_content)
        (createBasicScenes story_content (extractBasicCharacters story_content)) := rfl
  refine ⟨?_, ?_, ?_, ?_, ?_, ?_⟩
  · rw [hc]; decide
  · rw [hc]; decide
  · rw [hs]; decide
  · rw [hs]; decide
  · rw [hp, hs]
  · rw [hn]
    exact basicNarration_words_lt story_content _

set_option maxRecDepth 16384 in
/-- C2 counterexample.  A 100-character story passes input validation,
yet the fallback narration has far fewer than 900 words (it has 80), so
the word-count invariant of spec section 3 does not hold on the fallback
path. -/
theorem fallback_narration_count_cex :
    validateStoryInput story100 = true ∧
    ¬ (min_words ≤ (pyWords (processWithFallback story100 "The Story").narration).length) := by
  decide

/-- C3 (amended).  Every character sequence produced by
`_parse_characters` (i.e. whenever the character model call yields text)
has between 2 and 6 elements, and a parsed record is accepted exactly when
at most 2 of its required fields are empty or absent.  (The claim fails in
two respects, however: when the character model call yields no text the
produced ProcessingResult contains an empty character sequence, and an
accepted record need not have a non-empty name, since the name may itself
be one of the tolerated missing fields.) -/
theorem character_count_gate_range (analysis_text : String) :
    min_characters ≤ (parseCharacters analysis_text).length ∧
    (parseCharacters analysis_text).length ≤ max_characters ∧
    (∀ c : Character,
      validateCharacter c = true ↔ (characterMissingFields c).length ≤ 2) := by
  refine ⟨?_, ?_, ?_⟩
  · unfold parseCharacters
    by_cases h : ((parsedCharacterList analysis_text).take max_characters).length < min_characters
    · rw [if_pos h]
      have hb : (extractBasicCharacters analysis_text).length = 2 := rfl
      rw [hb]; decide
    · rw [if_neg h]; omega
  · unfold parseCharacters
    by_cases h : ((parsedCharacterList analysis_text).take max_characters).length < min_characters
    · rw [if_pos h]
      have hb : (extractBasicCharacters analysis_text).length = 2 := rfl
      rw [hb]; decide
    · rw [if_neg h]
      exact List.length_take_le max_characters (parsedCharacterList analysis_text)
  · intro c
    unfold validateCharacter
    by_cases h : (characterMissingFields c).isEmpty
    · have h0 : (characterMissingFields c).length = 0 := by
        simpa [List.isEmpty_iff_length_eq_zero] using h
      simp [h, h0]
    · simp [h]

/-- C3 counterexample.  When the character model call yields no result,
`_process_with_ai` stores an empty character list in the produced
ProcessingResult, violating `2 <= |characters|`. -/
theorem character_sequence_empty_cex :
    ¬ (min_characters ≤
        (processWithAI "a story" "T" none (some "y") none none).characters.length) := by
  decide

/-- C4.  Count gates for both entity stages: the parsed sequence is
truncated to the configured maximum (keeping the first N records in input
order, `List.take`); when the truncated length is below the configured
minimum the whole parsed sequence is replaced by the fallback-synthesized
one.  Moreover a model response with exactly 5 valid scene blocks
(`min_scenes = 4`, `max_scenes = 8`) is returned unmodified: no
truncation, no fallback. -/
theorem entity_count_gate_policy :
    (∀ t, min_characters ≤ ((parsedCharacterList t).take max_characters).length →
      parseCharacters t = (parsedCharacterList t).take max_characters) ∧
    (∀ t, ((parsedCharacterList t).take max_characters).length < min_characters →
      parseCharacters t = extractBasicCharacters t) ∧
    (∀ t, min_scenes ≤ ((parsedSceneList t).take max_scenes).length →
      parseScenes t = (parsedSceneList t).take max_scenes) ∧
    (∀ t, ((parsedSceneList t).take max_scenes).length < min_scenes →
      parseScenes t = createBasicScenes t []) ∧
    (parsedSceneList fiveSceneText).length = 5 ∧
    parseScenes fiveSceneText = parsedSceneList fiveSceneText := by
  refine ⟨?_, ?_, ?_, ?_, by decide, by decide⟩
  · intro t h
    unfold parseCharacters
    rw [if_neg (by omega)]
  · intro t h
    unfold parseCharacters
    rw [if_pos h]
  · intro t h
    unfold parseScenes
    rw [if_neg (by omega)]
  · intro t h
    unfold parseScenes
    rw [if_pos h]

/-- C4 witness: the five-scene response satisfies the hypothesis of the
scene count gate, and the gate returns the (un-truncated) parsed list. -/
theorem entity_count_gate_policy_witness :
    min_scenes ≤ ((parsedSceneList fiveSceneText).take max_scenes).length ∧
    parseScenes fiveSceneText = (parsedSceneList fiveSceneText).take max_scenes :=
  ⟨by decide, entity_count_gate_policy.2.2.1 fiveSceneText (by decide)⟩

/-- C5 (amended).  In `_process_with_ai`, a stage whose model call
returns no result (or empty text) yields an *empty* value for that stage,
not the fallback-synthesized one: the character, scene and prompt stages
store an empty list and the narration stage stores the fixed string
`Narration generation failed.` (unless another stage independently routes
the whole run to the fallback result via a raised `KeyError`).  The
fallback synthesizer is reached for a stage only through the count gate of
its parser, i.e. when the call yields parseable text with too few valid
records. -/
theorem no_result_stage_behavior :
    (∀ story_content story_title sceneResp narrResp promptResp,
      (processWithAI story_content story_title none sceneResp narrResp promptResp).characters
          = [] ∨
      processWithAI story_content story_title none sceneResp narrResp promptResp =
        processWithFallback story_content story_title) ∧
    (∀ story_content story_title charResp sceneResp promptResp,
      (processWithAI story_content story_title charResp sceneResp none promptResp).narration
          = narrationFailedMsg ∨
      processWithAI story_content story_title charResp sceneResp none promptResp =
        processWithFallback story_content story_title) ∧
    (∀ story_content story_title charResp sceneResp narrResp,
      (processWithAI story_content story_title charResp sceneResp narrResp none).image_prompts
          = [] ∨
      processWithAI story_content story_title charResp sceneResp narrResp none =
        processWithFallback story_content story_title) := by
  refine ⟨?_, ?_, ?_⟩
  · intro story_content story_title r1 r2 r3
    simp only [processWithAI]
    by_cases h0 : ((if isTruthy none = true then parseCharacters (none.getD "") else []).any
        fun c => c.name.isNone) = true
    · rw [if_pos h0]; right; rfl
    · rw [if_neg h0]
      by_cases h1 : ((if isTruthy r1 = true then parseScenes (r1.getD "") else []).any
          fun s => s.title.isNone) = true
      · rw [if_pos h1]; right; rfl
      · rw [if_neg h1]; left; rfl
  · intro story_content story_title r1 r2 r3
    simp only [processWithAI]
    by_cases h0 : ((if isTruthy r1 = true then parseCharacters (r1.getD "") else []).any
        fun c => c.name.isNone) = true
    · rw [if_pos h0]; right; rfl
    · rw [if_neg h0]
      by_cases h1 : ((if isTruthy r2 = true then parseScenes (r2.getD "") else []).any
          fun s => s.title.isNone) = true
      · rw [if_pos h1]; right; rfl
      · rw [if_neg h1]; left; rfl
  · intro story_content story_title r1 r2 r3
    simp only [processWithAI]
    by_cases h0 : ((if isTruthy r1 = true then parseCharacters (r1.getD "") else []).any
        fun c => c.name.isNone) = true
    · rw [if_pos h0]; right; rfl
    · rw [if_neg h0]
      by_cases h1 : ((if isTruthy r2 = true then parseScenes (r2.getD "") else []).any
          fun s => s.title.isNone) = true
      · rw [if_pos h1]; right; rfl
      · rw [if_neg h1]; left; rfl

/-- C5 counterexample.  With the character and narration model calls
returning no result (client available, scene stage parseable via its own
count-gate fallback), the produced result has an empty character list —
not the fallback characters — and the fixed failure string as narration —
not the fallback narration. -/
theorem no_result_fallback_cex :
    (processWithAI "s" "T" none (some "x") none none).characters = [] ∧
    (processWithAI "s" "T" none (some "x") none none).characters ≠
      (processWithFallback "s" "T").characters ∧
    (processWithAI "s" "T" none (some "x") none none).narration = narrationFailedMsg ∧
    (processWithAI "s" "T" none (some "x") none none).narration ≠
      (processWithFallback "s" "T").narration := by
  decide

/-- C6 (amended).  A 99-character story always fails input validation
(its stripped length is at most 99).  A 100-character story, however,
passes input validation exactly when its *stripped* length is still 100,
i.e. when it has no leading or trailing whitespace: `_validate_story_input`
compares the stripped length, not the raw length, with the minimum. -/
theorem story_length_validation :
    (∀ s : String, s.data.length = 99 → validateStoryInput s = false) ∧
    (∀ s : String, s.data.length = 100 →
      (validateStoryInput s = true ↔ (pyStrip s).data.length = 100)) := by
  constructor
  · intro s h
    have hlt : (pyStrip s).data.length < min_story_length := by
      have := stripL_length_le s.data
      simp only [pyStrip, mk_data]
      rw [min_story_length]
      omega
    unfold validateStoryInput validateStoryInputE
    rw [if_pos (by simp only [Bool.or_eq_true, decide_eq_true_eq]; right; exact hlt)]
  · intro s h
    have hle : (pyStrip s).data.length ≤ 100 := by
      have := stripL_length_le s.data
      simp only [pyStrip, mk_data]
      omega
    have hne : ¬ (s = "") := by
      intro he
      rw [he] at h
      simp at h
    have hmax : ¬ (s.data.length > max_story_length) := by
      rw [max_story_length]
      omega
    unfold validateStoryInput validateStoryInputE
    by_cases hstrip : (pyStrip s).data.length < min_story_length
    · rw [if_pos (by simp only [Bool.or_eq_true, decide_eq_true_eq]; right; exact hstrip)]
      rw [min_story_length] at hstrip
      constructor
      · intro hfalse
        cases hfalse
      · intro heq
        omega
    · have hno : ¬ (s = "" ∨ (pyStrip s).data.length < min_story_length) := by
        intro hor
        exact hor.elim hne hstrip
      rw [if_neg (by simpa only [Bool.or_eq_true, decide_eq_true_eq] using hno),
          if_neg (by simpa using hmax)]
      rw [min_story_length] at hstrip
      constructor
      · intro _
        omega
      · intro _
        rfl

/-- C6 witness: a 99-letter story is rejected; a 100-letter story with no
surrounding whitespace passes. -/
theorem story_length_validation_witness :
    validateStoryInput story99 = false ∧ validateStoryInput story100 = true :=
  ⟨story_length_validation.1 story99 (by decide),
   (story_length_validation.2 story100 (by decide)).mpr (by decide)⟩

/-- C6 counterexample.  A story of exactly 100 characters whose last
character is a space is rejected by input validation (its stripped length
is 99), refuting the claim that every 100-character story proceeds. -/
theorem story_length_validation_cex :
    story99sp.data.length = 100 ∧ validateStoryInput story99sp = false := by
  decide

/-- C7.  For every call of `analyze_with_retry` with the client
available: at most `max_retries` (= 3) attempts are made, the wait after
the failed attempt `i` (0-based) is `retry_delay * 2 ** i` seconds, and
when every attempt fails the call returns `None` to its caller instead of
raising. -/
theorem retry_backoff_policy (outcomes : Nat → Option String) :
    (analyzeWithRetry true outcomes).attempts ≤ max_retries ∧
    (∀ i, i < (analyzeWithRetry true outcomes).sleeps.length →
      (analyzeWithRetry true outcomes).sleeps.getD i 0 = retry_delay * 2 ^ i) ∧
    ((∀ i, i < max_retries → outcomes i = none) →
      (analyzeWithRetry true outcomes).result = none) := by
  have hrw : analyzeWithRetry true outcomes = retryLoop outcomes 0 3 := by
    simp [analyzeWithRetry, max_retries]
  rw [hrw, max_retries]
  rcases h0 : outcomes 0 with _ | r0
  · rcases h1 : outcomes 1 with _ | r1
    · rcases h2 : outcomes 2 with _ | r2
      · have e : retryLoop outcomes 0 3 =
            ⟨none, [retry_delay * 2 ^ 0, retry_delay * 2 ^ 1], 3⟩ := by
          simp only [retryLoop, h0, h1, h2]
          norm_num
        rw [e]
        refine ⟨by norm_num, ?_, fun _ => rfl⟩
        intro i hi
        simp only [List.length_cons, List.length_nil] at hi
        interval_cases i <;> rfl
      · have e : retryLoop outcomes 0 3 =
            ⟨some (pyStrip r2), [retry_delay * 2 ^ 0, retry_delay * 2 ^ 1], 3⟩ := by
          simp only [retryLoop, h0, h1, h2]
          norm_num
        rw [e]
        refine ⟨by norm_num, ?_, ?_⟩
        · intro i hi
          simp only [List.length_cons, List.length_nil] at hi
          interval_cases i <;> rfl
        · intro hall
          have hc := hall 2 (by norm_num)
          rw [h2] at hc
          cases hc
    · have e : retryLoop outcomes 0 3 =
          ⟨some (pyStrip r1), [retry_delay * 2 ^ 0], 2⟩ := by
        simp only [retryLoop, h0, h1]
        norm_num
      rw [e]
      refine ⟨by norm_num, ?_, ?_⟩
      · intro i hi
        simp only [List.length_cons, List.length_nil] at hi
        interval_cases i <;> rfl
      · intro hall
        have hc := hall 1 (by norm_num)
        rw [h1] at hc
        cases hc
  · have e : retryLoop outcomes 0 3 = ⟨some (pyStrip r0), [], 1⟩ := by
      simp only [retryLoop, h0]
    rw [e]
    refine ⟨by norm_num, ?_, ?_⟩
    · intro i hi
      simp only [List.length_nil] at hi
      omega
    · intro hall
      have hc := hall 0 (by norm_num)
      rw [h0] at hc
      cases hc

/-- C7 witness: with every attempt failing, the call returns `None` and
the two waits are `2 * 2 ** 0` and `2 * 2 ** 1` seconds. -/
theorem retry_backoff_policy_witness :
    (analyzeWithRetry true (fun _ => none)).result = none ∧
    (analyzeWithRetry true (fun _ => none)).sleeps.getD 0 0 = retry_delay * 2 ^ 0 ∧
    (analyzeWithRetry true (fun _ => none)).sleeps.getD 1 0 = retry_delay * 2 ^ 1 :=
  ⟨(retry_backoff_policy (fun _ => none)).2.2 (fun _ _ => rfl),
   (retry_backoff_policy (fun _ => none)).2.1 0 (by decide),
   (retry_backoff_policy (fun _ => none)).2.1 1 (by decide)⟩

/-- C8 (amended).  `initialize_client` makes a single probe call: when the
probe fails the client is marked unavailable immediately, with *no*
backoff sleep and no retry — the `[2, 4]` backoff schedule occurs in
`analyze_with_retry` between query attempts, not during initialization. -/
theorem init_single_probe (api_key_present : Bool) :
    (initializeClient api_key_present none).1 = false ∧
    (initializeClient api_key_present none).2 = [] ∧
    (analyzeWithRetry true (fun _ => none)).sleeps = [2, 4] := by
  cases api_key_present <;> exact ⟨rfl, rfl, by decide⟩

/-- C8 counterexample.  With an always-failing probe the initialization
performs no backoff sleeps at all: its sleep sequence is `[]`, not the
claimed `[2, 4]`. -/
theorem init_backoff_cex :
    (initializeClient true none).1 = false ∧
    (initializeClient true none).2 = [] ∧
    (initializeClient true none).2 ≠ [retry_delay, retry_delay * 2] := by
  decide

/-- C10.  `_apply_quality_gates` is a pure observer: every field of the
results it is applied to is unchanged (warnings are merely collected), and
`process_story` therefore returns the branch result itself whenever input
validation passes — the gate call never rejects and never raises. -/
theorem quality_gates_frame :
    (∀ results, (applyQualityGates results).1 = results) ∧
    (∀ available charResp sceneResp narrResp promptResp story_content,
      validateStoryInput story_content = true →
      processStory available charResp sceneResp narrResp promptResp story_content =
        .ok (if available then
              processWithAI story_content (extractStoryTitle story_content)
                charResp sceneResp narrResp promptResp
             else processWithFallback story_content (extractStoryTitle story_content))) := by
  constructor
  · intro results
    rfl
  · intro available charResp sceneResp narrResp promptResp story_content h
    unfold processStory
    unfold validateStoryInput at h
    cases heq : validateStoryInputE story_content with
    | error e =>
      rw [heq] at h
      simp at h
    | ok u =>
      rfl

/-- C10 witness: on a concrete valid story the pipeline output is exactly
the fallback-branch result, unchanged by the quality gates. -/
theorem quality_gates_frame_witness :
    processStory false none none none none story100 =
      .ok (if (false : Bool) then
            processWithAI story100 (extractStoryTitle story100) none none none none
           else processWithFallback story100 (extractStoryTitle story100)) :=
  quality_gates_frame.2 false none none none none story100 (by decide)

/-! ## Round-trip development: splitting, stripping and marker lemmas -/

theorem splitNlL_ne_nil (l : List Char) : splitNlL l ≠ [] := by
  induction l with
  | nil => simp [splitNlL]
  | cons c cs ih =>
    by_cases hc : c = '\n'
    · simp [splitNlL, hc]
    · simp only [splitNlL, if_neg hc]
      cases h : splitNlL cs with
      | nil => simp
      | cons x xs => simp

theorem splitNlL_append (a b : List Char) :
    splitNlL (a ++ '\n' :: b) = splitNlL a ++ splitNlL b := by
  induction a with
  | nil =>
    simp [splitNlL]
  | cons c cs ih =>
    show splitNlL (c :: (cs ++ '\n' :: b)) = splitNlL (c :: cs) ++ splitNlL b
    by_cases hc : c = '\n'
    · simp only [splitNlL, if_pos hc, ih]
      rfl
    · simp only [splitNlL, if_neg hc, ih]
      cases h : splitNlL cs with
      | nil => exact absurd h (splitNlL_ne_nil cs)
      | cons x xs => simp

theorem splitNlL_no_newline (a : List Char) (h : ∀ ch ∈ a, ch ≠ '\n') :
    splitNlL a = [a] := by
  induction a with
  | nil => rfl
  | cons c cs ih =>
    have hc : c ≠ '\n' := h c (by simp)
    have ihc := ih (fun ch hch => h ch (by simp [hch]))
    simp [splitNlL, hc, ihc]

theorem dropWhile_eq_self {p : Char → Bool} {l : List Char} {c : Char}
    (hc : l.head? = some c) (hp : p c = false) : l.dropWhile p = l := by
  cases l with
  | nil => rfl
  | cons a as =>
    simp only [List.head?_cons, Option.some.injEq] at hc
    subst hc
    simp [List.dropWhile_cons, hp]

theorem stripL_id {l : List Char} {c d : Char}
    (hc : l.head? = some c) (hcs : pyIsSpace c = false)
    (hd : l.getLast? = some d) (hds : pyIsSpace d = false) : stripL l = l := by
  unfold stripL
  rw [dropWhile_eq_self hc hcs,
      dropWhile_eq_self (by rw [List.head?_reverse]; exact hd) hds,
      List.reverse_reverse]

theorem stripL_space_cons {v : List Char} {c d : Char}
    (hc : v.head? = some c) (hcs : pyIsSpace c = false)
    (hd : v.getLast? = some d) (hds : pyIsSpace d = false) :
    stripL (' ' :: v) = v := by
  unfold stripL
  rw [List.dropWhile_cons, if_pos (by decide), dropWhile_eq_self hc hcs,
      dropWhile_eq_self (by rw [List.head?_reverse]; exact hd) hds,
      List.reverse_reverse]

theorem okValue_elim {v : String} (h : okValue v = true) :
    ∃ c d, v.data.head? = some c ∧ pyIsSpace c = false ∧
      v.data.getLast? = some d ∧ pyIsSpace d = false ∧ ∀ ch ∈ v.data, ch ≠ '\n' := by
  unfold okValue at h
  cases hh : v.data.head? with
  | none => rw [hh] at h; cases hg : v.data.getLast? <;> rw [hg] at h <;> cases h
  | some c =>
    cases hg : v.data.getLast? with
    | none => rw [hh, hg] at h; cases h
    | some d =>
      rw [hh, hg] at h
      simp only [Bool.and_eq_true, Bool.not_eq_true', List.all_eq_true] at h
      refine ⟨c, d, rfl, h.1.1, rfl, h.1.2, ?_⟩
      intro ch hch
      exact bne_iff_ne.mp (h.2 ch hch)

theorem isPrefixOf_append_false {pat a : List Char} (r : List Char)
    (h1 : ¬ pat <+: a) (h2 : ¬ a <+: pat) :
    pat.isPrefixOf (a ++ r) = false := by
  cases hb : pat.isPrefixOf (a ++ r) with
  | false => rfl
  | true =>
    exfalso
    have hp : pat <+: a ++ r := List.isPrefixOf_iff_prefix.mp hb
    rcases List.prefix_or_prefix_of_prefix hp (List.prefix_append a r) with h' | h'
    exacts [h1 h', h2 h']

/-- A different marker never matches a serialized `marker value` line:
the two configured marker tables contain no marker that is a prefix of
another marker followed by a space. -/
theorem matchMarker_other (pat mk : String) (v : String)
    (h1 : ¬ pat.data <+: (mk.data ++ [' '])) (h2 : ¬ (mk.data ++ [' ']) <+: pat.data) :
    matchMarker pat (mk ++ " " ++ v) = none := by
  unfold matchMarker pyStartsWith
  have hd : (mk ++ " " ++ v).data = (mk.data ++ [' ']) ++ v.data := by
    simp [String.data_append]
  rw [hd, isPrefixOf_append_false v.data h1 h2]
  rfl

/-- A marker matches its own serialized line and recovers the exact value
(given the value is non-empty, single-line and stripped). -/
theorem matchMarker_self (mk v : String) (hok : okValue v = true) :
    matchMarker mk (mk ++ " " ++ v) = some v := by
  obtain ⟨c, d, hc, hcs, hd, hds, _⟩ := okValue_elim hok
  unfold matchMarker pyStartsWith pyDropStr pyStrip
  have hd2 : (mk ++ " " ++ v).data = mk.data ++ (' ' :: v.data) := by
    simp [String.data_append]
  rw [hd2, (List.isPrefixOf_iff_prefix).mpr (List.prefix_append mk.data (' ' :: v.data)),
      if_pos rfl]
  rw [List.drop_left mk.data (' ' :: v.data)]
  rw [mk_data, stripL_space_cons hc hcs hd hds]

/-- Serialized marker lines are unchanged by stripping, non-blank, and
contain no newline. -/
theorem markerLine_mem_props {mk v : String} {mc : Char} (hok : okValue v = true)
    (hmh : mk.data.head? = some mc) (hmcs : pyIsSpace mc = false)
    (hmnl : ∀ ch ∈ mk.data, ch ≠ '\n') :
    (∀ ch ∈ (mk ++ " " ++ v).data, ch ≠ '\n') ∧
    pyStrip (mk ++ " " ++ v) = (mk ++ " " ++ v) ∧ (mk ++ " " ++ v) ≠ "" := by
  obtain ⟨c, d, hc, hcs, hd, hds, hnl⟩ := okValue_elim hok
  have hmne : mk.data ≠ [] := by
    intro he
    rw [he] at hmh
    cases hmh
  have hvne : v.data ≠ [] := by
    intro he
    rw [he] at hc
    cases hc
  have hd2 : (mk ++ " " ++ v).data = mk.data ++ (' ' :: v.data) := by
    simp [String.data_append]
  refine ⟨?_, ?_, ?_⟩
  · intro ch hch
    rw [hd2] at hch
    rcases List.mem_append.mp hch with hch | hch
    · exact hmnl ch hch
    · rcases List.mem_cons.mp hch with hch | hch
      · subst hch
        decide
      · exact hnl ch hch
  · unfold pyStrip
    rw [hd2]
    have hh : (mk.data ++ (' ' :: v.data)).head? = some mc := by
      rw [List.head?_append_of_ne_nil mk.data hmne, hmh]
    have hg : (mk.data ++ (' ' :: v.data)).getLast? = some d := by
      rw [List.getLast?_append_of_ne_nil mk.data (by simp)]
      rw [show (' ' :: v.data) = [' '] ++ v.data from rfl,
          List.getLast?_append_of_ne_nil [' '] hvne, hd]
    rw [stripL_id hh hmcs hg hds, ← hd2]
  · intro he
    have : (mk ++ " " ++ v).data = [] := by rw [he]
    rw [hd2] at this
    simp at this

/-! ## Per-field behaviour of the field-marker loops on serialized lines -/

theorem setCharField_name (cur : Character) (v : String) (hok : okValue v = true) :
    setCharField cur ("Character:" ++ " " ++ v) = { cur with name := some v } := by
  have hm := matchMarker_self "Character:" v hok
  simp only [setCharField, hm]

theorem setCharField_role (cur : Character) (v : String) (hok : okValue v = true) :
    setCharField cur ("Role:" ++ " " ++ v) = { cur with role := some v } := by
  have e1 := matchMarker_other "Character:" "Role:" v (by decide) (by decide)
  have hm := matchMarker_self "Role:" v hok
  simp only [setCharField, e1, hm]

theorem setCharField_personality (cur : Character) (v : String) (hok : okValue v = true) :
    setCharField cur ("Personality:" ++ " " ++ v) = { cur with personality := some v } := by
  have e1 := matchMarker_other "Character:" "Personality:" v (by decide) (by decide)
  have e2 := matchMarker_other "Role:" "Personality:" v (by decide) (by decide)
  have hm := matchMarker_self "Personality:" v hok
  simp only [setCharField, e1, e2, hm]

theorem setCharField_appearance (cur : Character) (v : String) (hok : okValue v = true) :
    setCharField cur ("Appearance:" ++ " " ++ v) = { cur with appearance := some v } := by
  have e1 := matchMarker_other "Character:" "Appearance:" v (by decide) (by decide)
  have e2 := matchMarker_other "Role:" "Appearance:" v (by decide) (by decide)
  have e3 := matchMarker_other "Personality:" "Appearance:" v (by decide) (by decide)
  have hm := matchMarker_self "Appearance:" v hok
  simp only [setCharField, e1, e2, e3, hm]

theorem setCharField_motivation (cur : Character) (v : String) (hok : okValue v = true) :
    setCharField cur ("Motivation:" ++ " " ++ v) = { cur with motivation := some v } := by
  have e1 := matchMarker_other "Character:" "Motivation:" v (by decide) (by decide)
  have e2 := matchMarker_other "Role:" "Motivation:" v (by decide) (by decide)
  have e3 := matchMarker_other "Personality:" "Motivation:" v (by decide) (by decide)
  have e4 := matchMarker_other "Appearance:" "Motivation:" v (by decide) (by decide)
  have hm := matchMarker_self "Motivation:" v hok
  simp only [setCharField, e1, e2, e3, e4, hm]

theorem setCharField_emotional (cur : Character) (v : String) (hok : okValue v = true) :
    setCharField cur ("Emotional Traits:" ++ " " ++ v) =
      { cur with emotional_traits := some v } := by
  have e1 := matchMarker_other "Character:" "Emotional Traits:" v (by decide) (by decide)
  have e2 := matchMarker_other "Role:" "Emotional Traits:" v (by decide) (by decide)
  have e3 := matchMarker_other "Personality:" "Emotional Traits:" v (by decide) (by decide)
  have e4 := matchMarker_other "Appearance:" "Emotional Traits:" v (by decide) (by decide)
  have e5 := matchMarker_other "Motivation:" "Emotional Traits:" v (by decide) (by decide)
  have hm := matchMarker_self "Emotional Traits:" v hok
  simp only [setCharField, e1, e2, e3, e4, e5, hm]

theorem setCharField_description (cur : Character) (v : String) (hok : okValue v = true) :
    setCharField cur ("Description:" ++ " " ++ v) = { cur with description := some v } := by
  have e1 := matchMarker_other "Character:" "Description:" v (by decide) (by decide)
  have e2 := matchMarker_other "Role:" "Description:" v (by decide) (by decide)
  have e3 := matchMarker_other "Personality:" "Description:" v (by decide) (by decide)
  have e4 := matchMarker_other "Appearance:" "Description:" v (by decide) (by decide)
  have e5 := matchMarker_other "Motivation:" "Description:" v (by decide) (by decide)
  have e6 := matchMarker_other "Emotional Traits:" "Description:" v (by decide) (by decide)
  have hm := matchMarker_self "Description:" v hok
  simp only [setCharField, e1, e2, e3, e4, e5, e6, hm]

/-- Folding the field-marker loop over the serialized lines of a record
rebuilds exactly that record. -/
theorem foldl_serializeCharacter (c : Character) (hok : okCharacter c = true) :
    (serializeCharacter c).foldl setCharField emptyCharacter = c := by
  obtain ⟨o1, o2, o3, o4, o5, o6, o7⟩ := c
  simp only [okCharacter, Bool.and_eq_true] at hok
  obtain ⟨⟨⟨⟨⟨⟨⟨h1, h2⟩, h3⟩, h4⟩, h5⟩, h6⟩, h7⟩, hval⟩ := hok
  clear hval
  cases o1 <;> cases o2 <;> cases o3 <;> cases o4 <;> cases o5 <;> cases o6 <;> cases o7 <;>
    · simp only [okField] at h1 h2 h3 h4 h5 h6 h7
      simp only [serializeCharacter, markerLine, List.nil_append, List.append_nil,
        List.foldl_append, List.foldl_cons, List.foldl_nil,
        setCharField_name _ _ , setCharField_role, setCharField_personality,
        setCharField_appearance, setCharField_motivation, setCharField_emotional,
        setCharField_description, h1, h2, h3, h4, h5, h6, h7]
      try rfl

/-! ## Running the parser over serialized lines -/

theorem parseCharacterLines_nonblank (ls tail : List String) (cur : Character)
    (h : ∀ l ∈ ls, pyStrip l = l ∧ l ≠ "") :
    parseCharacterLines (ls ++ tail) cur = parseCharacterLines tail (ls.foldl setCharField cur) := by
  induction ls generalizing cur with
  | nil => rfl
  | cons l ls ih =>
    have hl := h l (by simp)
    show parseCharacterLines (l :: (ls ++ tail)) cur = _
    rw [parseCharacterLines]
    simp only [hl.1, if_neg hl.2]
    exact ih (setCharField cur l) (fun x hx => h x (List.mem_cons_of_mem l hx))

/-- Every line of a serialized character record is newline-free,
strip-invariant and non-blank. -/
theorem charLine_props {l : String} {c : Character} (hok : okCharacter c = true)
    (hl : l ∈ serializeCharacter c) :
    (∀ ch ∈ l.data, ch ≠ '\n') ∧ pyStrip l = l ∧ l ≠ "" := by
  obtain ⟨o1, o2, o3, o4, o5, o6, o7⟩ := c
  simp only [okCharacter, Bool.and_eq_true] at hok
  obtain ⟨⟨⟨⟨⟨⟨⟨h1, h2⟩, h3⟩, h4⟩, h5⟩, h6⟩, h7⟩, _⟩ := hok
  simp only [serializeCharacter, List.mem_append] at hl
  rcases hl with ((((((hl | hl) | hl) | hl) | hl) | hl) | hl)
  · cases o1 with
    | none => simp [markerLine] at hl
    | some v =>
      simp only [markerLine, List.mem_singleton] at hl
      subst hl
      exact markerLine_mem_props (by simpa [okField] using h1) rfl (by decide) (by decide)
  · cases o2 with
    | none => simp [markerLine] at hl
    | some v =>
      simp only [markerLine, List.mem_singleton] at hl
      subst hl
      exact markerLine_mem_props (by simpa [okField] using h2) rfl (by decide) (by decide)
  · cases o3 with
    | none => simp [markerLine] at hl
    | some v =>
      simp only [markerLine, List.mem_singleton] at hl
      subst hl
      exact markerLine_mem_props (by simpa [okField] using h3) rfl (by decide) (by decide)
  · cases o4 with
    | none => simp [markerLine] at hl
    | some v =>
      simp only [markerLine, List.mem_singleton] at hl
      subst hl
      exact markerLine_mem_props (by simpa [okField] using h4) rfl (by decide) (by decide)
  · cases o5 with
    | none => simp [markerLine] at hl
    | some v =>
      simp only [markerLine, List.mem_singleton] at hl
      subst hl
      exact markerLine_mem_props (by simpa [okField] using h5) rfl (by decide) (by decide)
  · cases o6 with
    | none => simp [markerLine] at hl
    | some v =>
      simp only [markerLine, List.mem_singleton] at hl
      subst hl
      exact markerLine_mem_props (by simpa [okField] using h6) rfl (by decide) (by decide)
  · cases o7 with
    | none => simp [markerLine] at hl
    | some v =>
      simp only [markerLine, List.mem_singleton] at hl
      subst hl
      exact markerLine_mem_props (by simpa [okField] using h7) rfl (by decide) (by decide)

/-- A record passing validation is a non-empty dict. -/
theorem validateCharacter_ne_empty {c : Character} (h : validateCharacter c = true) :
    c ≠ emptyCharacter := by
  intro he
  rw [he] at h
  cases h

/-- A record passing validation serializes to at least one line. -/
theorem serializeCharacter_ne_nil {c : Character} (h : validateCharacter c = true) :
    serializeCharacter c ≠ [] := by
  intro he
  obtain ⟨o1, o2, o3, o4, o5, o6, o7⟩ := c
  simp only [serializeCharacter, List.append_eq_nil] at he
  obtain ⟨⟨⟨⟨⟨⟨e1, e2⟩, e3⟩, e4⟩, e5⟩, e6⟩, e7⟩ := he
  cases o1 with
  | some v => simp [markerLine] at e1
  | none =>
  cases o2 with
  | some v => simp [markerLine] at e2
  | none =>
  cases o3 with
  | some v => simp [markerLine] at e3
  | none =>
  cases o4 with
  | some v => simp [markerLine] at e4
  | none =>
  cases o5 with
  | some v => simp [markerLine] at e5
  | none =>
  cases o6 with
  | some v => simp [markerLine] at e6
  | none =>
  cases o7 with
  | some v => simp [markerLine] at e7
  | none => cases h

theorem pySplitNl_join_lines (lines : List String) (hne : lines ≠ [])
    (h : ∀ l ∈ lines, ∀ ch ∈ (l : String).data, ch ≠ '\n') :
    pySplitNl (pyJoin "\n" lines) = lines := by
  induction lines with
  | nil => exact absurd rfl hne
  | cons x xs ih =>
    cases xs with
    | nil =>
      show pySplitNl x = [x]
      unfold pySplitNl
      rw [splitNlL_no_newline x.data (h x (by simp))]
      rfl
    | cons y ys =>
      show pySplitNl (x ++ "\n" ++ pyJoin "\n" (y :: ys)) = x :: y :: ys
      unfold pySplitNl
      have hd : (x ++ "\n" ++ pyJoin "\n" (y :: ys)).data =
          x.data ++ '\n' :: (pyJoin "\n" (y :: ys)).data := by
        simp [String.data_append]
      rw [hd, splitNlL_append, splitNlL_no_newline x.data (h x (by simp))]
      have ihx := ih (by simp) (fun l hl => h l (List.mem_cons_of_mem x hl))
      unfold pySplitNl at ihx
      simp only [List.map_append, List.map_cons, List.map_nil]
      rw [ihx]
      rfl

theorem pySplitNl_blank_append (x r : String) :
    pySplitNl (x ++ "\n\n" ++ r) = pySplitNl x ++ "" :: pySplitNl r := by
  unfold pySplitNl
  have hd : (x ++ "\n\n" ++ r).data = x.data ++ '\n' :: ('\n' :: r.data) := by
    simp [String.data_append]
  rw [hd, splitNlL_append,
      show splitNlL ('\n' :: r.data) = [] :: splitNlL r.data by simp [splitNlL],
      List.map_append, List.map_cons]

theorem pySplitNl_join_char_blocks (cs : List Character) (hne : cs ≠ [])
    (hok : ∀ c ∈ cs, okCharacter c = true) :
    pySplitNl (pyJoin "\n\n" (cs.map (fun c => pyJoin "\n" (serializeCharacter c)))) =
      joinBlocksLines (cs.map serializeCharacter) := by
  induction cs with
  | nil => exact absurd rfl hne
  | cons c cs ih =>
    have hokc := hok c (by simp)
    have hval : validateCharacter c = true := by
      simp only [okCharacter, Bool.and_eq_true] at hokc
      exact hokc.2
    have hokc2 := hok c (by simp)
    have hfirst := pySplitNl_join_lines (serializeCharacter c)
      (serializeCharacter_ne_nil hval) (fun l hl => (charLine_props hokc2 hl).1)
    cases cs with
    | nil =>
      show pySplitNl (pyJoin "\n" (serializeCharacter c)) = joinBlocksLines [serializeCharacter c]
      rw [hfirst]
      rfl
    | cons c2 cs2 =>
      show pySplitNl (pyJoin "\n" (serializeCharacter c) ++ "\n\n" ++
          pyJoin "\n\n" ((c2 :: cs2).map (fun x => pyJoin "\n" (serializeCharacter x)))) = _
      rw [pySplitNl_blank_append, hfirst,
          ih (by simp) (fun x hx => hok x (List.mem_cons_of_mem c hx))]
      rfl

theorem parseCharacterLines_blank (ls : List String) (cur : Character) :
    parseCharacterLines ("" :: ls) cur =
      (if cur = emptyCharacter then [] else if validateCharacter cur then [cur] else []) ++
        parseCharacterLines ls emptyCharacter := rfl

/-- Running the character line loop over the serialized blocks of a
record sequence yields exactly that sequence. -/
theorem parseCharacterLines_blocks (cs : List Character)
    (hok : ∀ c ∈ cs, okCharacter c = true) :
    parseCharacterLines (joinBlocksLines (cs.map serializeCharacter)) emptyCharacter = cs := by
  induction cs with
  | nil => rfl
  | cons c cs ih =>
    have hokc := hok c (by simp)
    have hval : validateCharacter c = true := by
      have hokc2 := hok c (by simp)
      simp only [okCharacter, Bool.and_eq_true] at hokc2
      exact hokc2.2
    have hfold := foldl_serializeCharacter c hokc
    have hprops : ∀ l ∈ serializeCharacter c, pyStrip l = l ∧ l ≠ "" :=
      fun l hl => ⟨(charLine_props hokc hl).2.1, (charLine_props hokc hl).2.2⟩
    cases cs with
    | nil =>
      show parseCharacterLines (serializeCharacter c) emptyCharacter = [c]
      have hrun := parseCharacterLines_nonblank (serializeCharacter c) [] emptyCharacter hprops
      rw [List.append_nil] at hrun
      rw [hrun, hfold]
      show (if c = emptyCharacter then []
            else if validateCharacter c then [c] else []) = [c]
      rw [if_neg (validateCharacter_ne_empty hval), if_pos hval]
    | cons c2 cs2 =>
      show parseCharacterLines (serializeCharacter c ++
          "" :: joinBlocksLines ((c2 :: cs2).map serializeCharacter)) emptyCharacter =
        c :: c2 :: cs2
      rw [parseCharacterLines_nonblank _ _ _ hprops, hfold, parseCharacterLines_blank,
          if_neg (validateCharacter_ne_empty hval), if_pos hval,
          ih (fun x hx => hok x (List.mem_cons_of_mem c hx))]
      rfl

/-- Serializing a sequence of round-trip-safe character records and
re-parsing it with `_parse_characters` (count gates included) returns the
original sequence. -/
theorem parseCharacters_serialize (cs : List Character) (hok : cs.all okCharacter = true)
    (hmin : min_characters ≤ cs.length) (hmax : cs.length ≤ max_characters) :
    parseCharacters (serializeCharacters cs) = cs := by
  have hok' : ∀ c ∈ cs, okCharacter c = true := by
    rw [List.all_eq_true] at hok
    exact hok
  have hne : cs ≠ [] := by
    intro he
    rw [he] at hmin
    rw [min_characters] at hmin
    simp at hmin
  have hp : parsedCharacterList (serializeCharacters cs) = cs := by
    unfold parsedCharacterList serializeCharacters
    rw [pySplitNl_join_char_blocks cs hne hok']
    exact parseCharacterLines_blocks cs hok'
  unfold parseCharacters
  rw [hp, List.take_of_length_le hmax, if_neg (by omega)]

/-! ## The same development for scenes -/

theorem setSceneField_title (cur : Scene) (v : String) (hok : okValue v = true) :
    setSceneField cur ("Scene:" ++ " " ++ v) = { cur with title := some v } := by
  have hm := matchMarker_self "Scene:" v hok
  simp only [setSceneField, hm]

theorem setSceneField_location (cur : Scene) (v : String) (hok : okValue v = true) :
    setSceneField cur ("Location:" ++ " " ++ v) = { cur with location := some v } := by
  have e1 := matchMarker_other "Scene:" "Location:" v (by decide) (by decide)
  have hm := matchMarker_self "Location:" v hok
  simp only [setSceneField, e1, hm]

theorem setSceneField_emotion (cur : Scene) (v : String) (hok : okValue v = true) :
    setSceneField cur ("Emotion:" ++ " " ++ v) = { cur with emotion := some v } := by
  have e1 := matchMarker_other "Scene:" "Emotion:" v (by decide) (by decide)
  have e2 := matchMarker_other "Location:" "Emotion:" v (by decide) (by decide)
  have hm := matchMarker_self "Emotion:" v hok
  simp only [setSceneField, e1, e2, hm]

theorem setSceneField_characters (cur : Scene) (v : String) (hok : okValue v = true) :
    setSceneField cur ("Characters:" ++ " " ++ v) = { cur with characters := some v } := by
  have e1 := matchMarker_other "Scene:" "Characters:" v (by decide) (by decide)
  have e2 := matchMarker_other "Location:" "Characters:" v (by decide) (by decide)
  have e3 := matchMarker_other "Emotion:" "Characters:" v (by decide) (by decide)
  have hm := matchMarker_self "Characters:" v hok
  simp only [setSceneField, e1, e2, e3, hm]

theorem setSceneField_action (cur : Scene) (v : String) (hok : okValue v = true) :
    setSceneField cur ("Action:" ++ " " ++ v) = { cur with action := some v } := by
  have e1 := matchMarker_other "Scene:" "Action:" v (by decide) (by decide)
  have e2 := matchMarker_other "Location:" "Action:" v (by decide) (by decide)
  have e3 := matchMarker_other "Emotion:" "Action:" v (by decide) (by decide)
  have e4 := matchMarker_other "Characters:" "Action:" v (by decide) (by decide)
  have hm := matchMarker_self "Action:" v hok
  simp only [setSceneField, e1, e2, e3, e4, hm]

theorem setSceneField_description (cur : Scene) (v : String) (hok : okValue v = true) :
    setSceneField cur ("Description:" ++ " " ++ v) = { cur with description := some v } := by
  have e1 := matchMarker_other "Scene:" "Description:" v (by decide) (by decide)
  have e2 := matchMarker_other "Location:" "Description:" v (by decide) (by decide)
  have e3 := matchMarker_other "Emotion:" "Description:" v (by decide) (by decide)
  have e4 := matchMarker_other "Characters:" "Description:" v (by decide) (by decide)
  have e5 := matchMarker_other "Action:" "Description:" v (by decide) (by decide)
  have hm := matchMarker_self "Description:" v hok
  simp only [setSceneField, e1, e2, e3, e4, e5, hm]

theorem foldl_serializeScene (s : Scene) (hok : okScene s = true) :
    (serializeScene s).foldl setSceneField emptyScene = s := by
  obtain ⟨o1, o2, o3, o4, o5, o6⟩ := s
  simp only [okScene, Bool.and_eq_true] at hok
  obtain ⟨⟨⟨⟨⟨⟨h1, h2⟩, h3⟩, h4⟩, h5⟩, h6⟩, hval⟩ := hok
  clear hval
  cases o1 <;> cases o2 <;> cases o3 <;> cases o4 <;> cases o5 <;> cases o6 <;>
    · simp only [okField] at h1 h2 h3 h4 h5 h6
      simp only [serializeScene, markerLine, List.nil_append, List.append_nil,
        List.foldl_append, List.foldl_cons, List.foldl_nil,
        setSceneField_title, setSceneField_location, setSceneField_emotion,
        setSceneField_characters, setSceneField_action, setSceneField_description,
        h1, h2, h3, h4, h5, h6]
      try rfl

theorem parseSceneLines_nonblank (ls tail : List String) (cur : Scene)
    (h : ∀ l ∈ ls, pyStrip l = l ∧ l ≠ "") :
    parseSceneLines (ls ++ tail) cur = parseSceneLines tail (ls.foldl setSceneField cur) := by
  induction ls generalizing cur with
  | nil => rfl
  | cons l ls ih =>
    have hl := h l (by simp)
    show parseSceneLines (l :: (ls ++ tail)) cur = _
    rw [parseSceneLines]
    simp only [hl.1, if_neg hl.2]
    exact ih (setSceneField cur l) (fun x hx => h x (List.mem_cons_of_mem l hx))

theorem sceneLine_props {l : String} {s : Scene} (hok : okScene s = true)
    (hl : l ∈ serializeScene s) :
    (∀ ch ∈ l.data, ch ≠ '\n') ∧ pyStrip l = l ∧ l ≠ "" := by
  obtain ⟨o1, o2, o3, o4, o5, o6⟩ := s
  simp only [okScene, Bool.and_eq_true] at hok
  obtain ⟨⟨⟨⟨⟨⟨h1, h2⟩, h3⟩, h4⟩, h5⟩, h6⟩, _⟩ := hok
  simp only [serializeScene, List.mem_append] at hl
  rcases hl with (((((hl | hl) | hl) | hl) | hl) | hl)
  · cases o1 with
    | none => simp [markerLine] at hl
    | some v =>
      simp only [markerLine, List.mem_singleton] at hl
      subst hl
      exact markerLine_mem_props (by simpa [okField] using h1) rfl (by decide) (by decide)
  · cases o2 with
    | none => simp [markerLine] at hl
    | some v =>
      simp only [markerLine, List.mem_singleton] at hl
      subst hl
      exact markerLine_mem_props (by simpa [okField] using h2) rfl (by decide) (by decide)
  · cases o3 with
    | none => simp [markerLine] at hl
    | some v =>
      simp only [markerLine, List.mem_singleton] at hl
      subst hl
      exact markerLine_mem_props (by simpa [okField] using h3) rfl (by decide) (by decide)
  · cases o4 with
    | none => simp [markerLine] at hl
    | some v =>
      simp only [markerLine, List.mem_singleton] at hl
      subst hl
      exact markerLine_mem_props (by simpa [okField] using h4) rfl (by decide) (by decide)
  · cases o5 with
    | none => simp [markerLine] at hl
    | some v =>
      simp only [markerLine, List.mem_singleton] at hl
      subst hl
      exact markerLine_mem_props (by simpa [okField] using h5) rfl (by decide) (by decide)
  · cases o6 with
    | none => simp [markerLine] at hl
    | some v =>
      simp only [markerLine, List.mem_singleton] at hl
      subst hl
      exact markerLine_mem_props (by simpa [okField] using h6) rfl (by decide) (by decide)

theorem validateScene_ne_empty {s : Scene} (h : validateScene s = true) :
    s ≠ emptyScene := by
  intro he
  rw [he] at h
  cases h

theorem serializeScene_ne_nil {s : Scene} (h : validateScene s = true) :
    serializeScene s ≠ [] := by
  intro he
  obtain ⟨o1, o2, o3, o4, o5, o6⟩ := s
  simp only [serializeScene, List.append_eq_nil] at he
  obtain ⟨⟨⟨⟨⟨e1, e2⟩, e3⟩, e4⟩, e5⟩, e6⟩ := he
  cases o1 with
  | some v => simp [markerLine] at e1
  | none =>
  cases o2 with
  | some v => simp [markerLine] at e2
  | none =>
  cases o3 with
  | some v => simp [markerLine] at e3
  | none =>
  cases o4 with
  | some v => simp [markerLine] at e4
  | none =>
  cases o5 with
  | some v => simp [markerLine] at e5
  | none =>
  cases o6 with
  | some v => simp [markerLine] at e6
  | none => cases h

theorem pySplitNl_join_scene_blocks (ss : List Scene) (hne : ss ≠ [])
    (hok : ∀ s ∈ ss, okScene s = true) :
    pySplitNl (pyJoin "\n\n" (ss.map (fun s => pyJoin "\n" (serializeScene s)))) =
      joinBlocksLines (ss.map serializeScene) := by
  induction ss with
  | nil => exact absurd rfl hne
  | cons s ss ih =>
    have hoks := hok s (by simp)
    have hval : validateScene s = true := by
      have hoks2 := hok s (by simp)
      simp only [okScene, Bool.and_eq_true] at hoks2
      exact hoks2.2
    have hfirst := pySplitNl_join_lines (serializeScene s)
      (serializeScene_ne_nil hval) (fun l hl => (sceneLine_props hoks hl).1)
    cases ss with
    | nil =>
      show pySplitNl (pyJoin "\n" (serializeScene s)) = joinBlocksLines [serializeScene s]
      rw [hfirst]
      rfl
    | cons s2 ss2 =>
      show pySplitNl (pyJoin "\n" (serializeScene s) ++ "\n\n" ++
          pyJoin "\n\n" ((s2 :: ss2).map (fun x => pyJoin "\n" (serializeScene x)))) = _
      rw [pySplitNl_blank_append, hfirst,
          ih (by simp) (fun x hx => hok x (List.mem_cons_of_mem s hx))]
      rfl

theorem parseSceneLines_blank (ls : List String) (cur : Scene) :
    parseSceneLines ("" :: ls) cur =
      (if cur = emptyScene then [] else if validateScene cur then [cur] else []) ++
        parseSceneLines ls emptyScene := rfl

theorem parseSceneLines_blocks (ss : List Scene)
    (hok : ∀ s ∈ ss, okScene s = true) :
    parseSceneLines (joinBlocksLines (ss.map serializeScene)) emptyScene = ss := by
  induction ss with
  | nil => rfl
  | cons s ss ih =>
    have hoks := hok s (by simp)
    have hval : validateScene s = true := by
      have hoks2 := hok s (by simp)
      simp only [okScene, Bool.and_eq_true] at hoks2
      exact hoks2.2
    have hfold := foldl_serializeScene s hoks
    have hprops : ∀ l ∈ serializeScene s, pyStrip l = l ∧ l ≠ "" :=
      fun l hl => ⟨(sceneLine_props hoks hl).2.1, (sceneLine_props hoks hl).2.2⟩
    cases ss with
    | nil =>
      show parseSceneLines (serializeScene s) emptyScene = [s]
      have hrun := parseSceneLines_nonblank (serializeScene s) [] emptyScene hprops
      rw [List.append_nil] at hrun
      rw [hrun, hfold]
      show (if s = emptyScene then []
            else if validateScene s then [s] else []) = [s]
      rw [if_neg (validateScene_ne_empty hval), if_pos hval]
    | cons s2 ss2 =>
      show parseSceneLines (serializeScene s ++
          "" :: joinBlocksLines ((s2 :: ss2).map serializeScene)) emptyScene =
        s :: s2 :: ss2
      rw [parseSceneLines_nonblank _ _ _ hprops, hfold, parseSceneLines_blank,
          if_neg (validateScene_ne_empty hval), if_pos hval,
          ih (fun x hx => hok x (List.mem_cons_of_mem s hx))]
      rfl

/-- Serializing a sequence of round-trip-safe scene records and re-parsing
it with `_parse_scenes` (count gates included) returns the original
sequence. -/
theorem parseScenes_serialize (ss : List Scene) (hok : ss.all okScene = true)
    (hmin : min_scenes ≤ ss.length) (hmax : ss.length ≤ max_scenes) :
    parseScenes (serializeScenes ss) = ss := by
  have hok' : ∀ s ∈ ss, okScene s = true := by
    rw [List.all_eq_true] at hok
    exact hok
  have hne : ss ≠ [] := by
    intro he
    rw [he] at hmin
    rw [min_scenes] at hmin
    simp at hmin
  have hp : parsedSceneList (serializeScenes ss) = ss := by
    unfold parsedSceneList serializeScenes
    rw [pySplitNl_join_scene_blocks ss hne hok']
    exact parseSceneLines_blocks ss hok'
  unfold parseScenes
  rw [hp, List.take_of_length_le hmax, if_neg (by omega)]

/-- C9 (amended).  Round trip of the marker format: for every record
sequence whose present field values are non-empty single-line strings
*with no leading or trailing whitespace*, whose records pass per-record
validation, and whose length lies in the configured count range,
serializing each record as one `Marker: value` line per present field (in
the configured marker order) with a blank line between records and
re-parsing with the corresponding parser yields the original sequence —
for both `_parse_characters` and `_parse_scenes`.  (The whitespace
condition is necessary: values are re-parsed through `str.strip`, so a
value with surrounding whitespace does not survive — see the
counterexample.) -/
theorem marker_roundtrip :
    (∀ cs : List Character, cs.all okCharacter = true →
      min_characters ≤ cs.length → cs.length ≤ max_characters →
      parseCharacters (serializeCharacters cs) = cs) ∧
    (∀ ss : List Scene, ss.all okScene = true →
      min_scenes ≤ ss.length → ss.length ≤ max_scenes →
      parseScenes (serializeScenes ss) = ss) :=
  ⟨parseCharacters_serialize, parseScenes_serialize⟩

/-- C9 witness: a concrete two-character sequence and a concrete
four-scene sequence, both with stripped values, round-trip exactly. -/
theorem marker_roundtrip_witness :
    ([rtChar1, rtChar2'].all okCharacter = true ∧
      parseCharacters (serializeCharacters [rtChar1, rtChar2']) = [rtChar1, rtChar2']) ∧
    ([rtScene1, rtScene2, rtScene3, rtScene4].all okScene = true ∧
      parseScenes (serializeScenes [rtScene1, rtScene2, rtScene3, rtScene4]) =
        [rtScene1, rtScene2, rtScene3, rtScene4]) :=
  ⟨⟨by decide, marker_roundtrip.1 [rtChar1, rtChar2'] (by decide) (by decide) (by decide)⟩,
   ⟨by decide, marker_roundtrip.2 [rtScene1, rtScene2, rtScene3, rtScene4]
      (by decide) (by decide) (by decide)⟩⟩

/-- C9 counterexample.  A record sequence satisfying the claim exactly as
stated — non-empty single-line values, per-record validation passed,
length within range — whose name value `B ` carries a trailing space does
*not* round-trip: re-parsing strips the value to `B`. -/
theorem marker_roundtrip_cex :
    [rtChar1, rtChar2].all looseCharacter = true ∧
    min_characters ≤ ([rtChar1, rtChar2] : List Character).length ∧
    ([rtChar1, rtChar2] : List Character).length ≤ max_characters ∧
    parseCharacters (serializeCharacters [rtChar1, rtChar2]) ≠ [rtChar1, rtChar2] := by
  decide
